import Mathlib

/-!
Verification development for the m13253/http-proxy repository.

The definitions below are a shallow embedding of the Go sources:
`server.go` (middleware wiring, connection-state callback, stoppable
listener), `httpconnect/httpconnect.go` (CONNECT interception, close guard,
idle-timing wrapper), `proxyfilters/connectports.go` (port restriction) and
`utils/redis_reporter.go` (traffic reporting).  The behaviour of the
`tokenfilter` and `devicefilter` packages is modelled from the spec, since
their sources are not part of this repository snapshot; everything else is
translated directly from the code.
-/

namespace HttpProxy

/-! ### Middleware pipeline (`server.go`, `NewServer`) -/

/-- The five middleware components constructed in `NewServer` (`server.go`
lines 47-88). -/
inductive Component
  | forwardH    -- forward.New: direct proxying, terminal handler
  | connectH    -- httpconnect.New: CONNECT dispatcher
  | lanternPro  -- profilter.New: pro-tier tagging (currently NOOP)
  | tokenF      -- tokenfilter.New: auth-token check
  | deviceF     -- devicefilter.New: UID extraction
  deriving DecidableEq, Repr

/-- The `next` pointer of each component, exactly as wired in `NewServer`:
`forward.New(nil, ...)`, `httpconnect.New(forwardHandler, ...)`,
`profilter.New(connectHandler, ...)`, `tokenfilter.New(lanternPro, ...)`,
`devicefilter.New(tokenFilter, ...)`. -/
def nextOf : Component → Option Component
  | .forwardH => none
  | .connectH => some .forwardH
  | .lanternPro => some .connectH
  | .tokenF => some .lanternPro
  | .deviceF => some .tokenF

/-- `server.firstComponent = deviceFilter` in `NewServer` (`server.go`
line 85): the handler that the HTTP serving loop invokes first. -/
def firstComponent : Component := .deviceF

/-- Unfold the `next` pointers into the ordered execution chain (fuelled;
the concrete chain has five components). -/
def chainFromFuel : Nat → Component → List Component
  | 0, _ => []
  | n + 1, c =>
    c :: (match nextOf c with
          | none => []
          | some c2 => chainFromFuel n c2)

/-- The pipeline order induced by the wiring of `NewServer`. -/
def pipelineChain : List Component := chainFromFuel 5 firstComponent

/-- The order the spec asserts (authentication-token check first, then
client-identity extraction).  Written from the spec's words, for comparison
with `pipelineChain`. -/
def claimedChain : List Component :=
  [.tokenF, .deviceF, .lanternPro, .connectH, .forwardH]

/-- The request fields the pipeline filters inspect: method, the
X-Lantern-Auth-Token header and the X-Lantern-UID header (absent headers are
`none`). -/
structure Req where
  method : String
  authToken : Option String
  uid : Option String
  deriving DecidableEq, Repr

/-- A response written locally by the proxy: status code and reason
phrase. -/
structure Resp where
  status : Nat
  reason : String
  deriving DecidableEq, Repr

/-- The response produced on any authentication or identity failure
(`http.NotFound`, asserted as `HTTP/1.1 404 Not Found` by `main_test.go`). -/
def notFoundResp : Resp := ⟨404, "Not Found"⟩

/-- The response `utils.RespondOK` writes when a CONNECT request is accepted
(asserted as `HTTP/1.1 200 OK` by `main_test.go`). -/
def okResp : Resp := ⟨200, "OK"⟩

/-- What the pipeline ends up doing with a request. -/
inductive Outcome
  | response (r : Resp)  -- some filter answered the request itself
  | connectTunnel        -- connectH: responds 200 OK and relays raw bytes
  | directForward        -- forwardH: forwards the request to the target
  deriving DecidableEq, Repr

/-- Run the pipeline on a request, returning the outcome and the ordered
list of components visited.  The order of the stages follows `NewServer`'s
wiring (`firstComponent = deviceFilter`, whose `next` is the token filter,
whose `next` is the pro filter, whose `next` is the CONNECT dispatcher).
Modelled from the spec: the per-filter behaviour of `devicefilter` (404 when
the UID header is absent) and `tokenfilter` (404 when the token header is
absent or differs from the configured token, the two cases treated
identically) follows spec sections 4.2 and 6, because those two packages'
sources are missing from this snapshot; the comments in `NewServer` and the
assertions in `main_test.go` state the same behaviour. -/
def runPipeline (serverToken : String) (req : Req) : Outcome × List Component :=
  match req.uid with
  | none => (.response notFoundResp, [.deviceF])
  | some _ =>
    match req.authToken with
    | none => (.response notFoundResp, [.deviceF, .tokenF])
    | some t =>
      if t = serverToken then
        if req.method = "CONNECT" then
          (.connectTunnel, [.deviceF, .tokenF, .lanternPro, .connectH])
        else
          (.directForward, [.deviceF, .tokenF, .lanternPro, .connectH, .forwardH])
      else (.response notFoundResp, [.deviceF, .tokenF])

/-- The response the proxy itself writes for a request, if any: filter
rejections are written directly; the CONNECT dispatcher writes 200 OK
(`utils.RespondOK`) before tunnelling; a direct forward's status comes from
the target and is not produced locally. -/
def observedResp (serverToken : String) (req : Req) : Option Resp :=
  match (runPipeline serverToken req).1 with
  | .response r => some r
  | .connectTunnel => some okResp
  | .directForward => none

/-! ### CONNECT interception (`httpconnect/httpconnect.go`, `intercept`) -/

/-- Observable actions `intercept` performs, in program order. -/
inductive IAct
  | respondOK          -- utils.RespondOK(w, req), line 73
  | respondBadGateway  -- utils.RespondBadGateway on hijack failure, line 77
  | dialTarget         -- net.Dial("tcp", req.Host), line 80
  | relay              -- the two io.Copy goroutines, lines 104-110
  | closeClient        -- clientConn.Close() inside closeConns, line 93
  | closeTarget        -- connOut.Close() inside closeConns, line 98
  deriving DecidableEq, Repr

/-- The ordered action trace of `intercept` (`httpconnect.go` lines 72-112)
as a function of whether the hijack and the outbound dial succeed.  The 200
OK is written before anything else; on hijack failure the handler responds
bad-gateway and returns; on dial failure it executes a bare `return` —
nothing further is written and neither connection is closed; on success it
relays and the close guard eventually closes both sides. -/
def interceptTrace (hijackOk dialOk : Bool) : List IAct :=
  .respondOK ::
    (if hijackOk then
      .dialTarget ::
        (if dialOk then [.relay, .closeClient, .closeTarget] else [])
     else [.respondBadGateway])

/-- Why a copy direction finished. -/
inductive FinishCause
  | eof
  | ioError
  | idleTimeout
  deriving DecidableEq, Repr

/-- The two copy directions of the tunnel. -/
inductive CopyDir
  | clientToTarget
  | targetToClient
  deriving DecidableEq, Repr

/-- State of the `closeOnce` / `closeConns` pair (`httpconnect.go` lines
91-110): whether the once-guard has fired, how many times its body ran, and
which connections have been closed. -/
structure GuardState where
  fired : Bool
  bodyRuns : Nat
  clientClosed : Bool
  targetClosed : Bool
  deriving DecidableEq, Repr

/-- Guard state before either copy direction finishes. -/
def initGuard : GuardState := ⟨false, 0, false, false⟩

/-- `closeConns` (lines 91-102): closes both the client connection and the
outbound connection. -/
def closeConns (s : GuardState) : GuardState :=
  { s with clientClosed := true, targetClosed := true }

/-- `closeOnce.Do(closeConns)`: `sync.Once` runs the body exactly on the
first call and is a no-op afterwards. -/
def onceDo (s : GuardState) : GuardState :=
  if s.fired then s
  else closeConns { s with fired := true, bodyRuns := s.bodyRuns + 1 }

/-- Each copy direction, when it finishes (for whatever cause), calls
`closeOnce.Do(closeConns)` (lines 106 and 110).  `sync.Once` serialises
concurrent callers, so every concurrent execution is equivalent to one of
these sequential orders of the finish events. -/
def runFinishSeq (s : GuardState) : List (CopyDir × FinishCause) → GuardState
  | [] => s
  | _ :: evs => runFinishSeq (onceDo s) evs

/-- Which idle timer each side of the tunnel carries, as set up by
`intercept`: only the outbound connection is wrapped in `idletiming.Conn`
with `f.idleTimeout` (line 84); the hijacked client connection is used
raw. -/
structure TunnelTimers where
  clientIdle : Option Nat
  targetIdle : Option Nat
  deriving DecidableEq, Repr

/-- The timer placement `intercept` actually creates. -/
def interceptTimers (idleTimeout : Nat) : TunnelTimers :=
  { clientIdle := none, targetIdle := some idleTimeout }

/-- The timer placement the claim asserts (a timer on each side).  Written
from the spec's words, for comparison with `interceptTimers`. -/
def claimedTimers (idleTimeout : Nat) : TunnelTimers :=
  { clientIdle := some idleTimeout, targetIdle := some idleTimeout }

/-- State of the single idle timer that `idletiming.Conn` attaches to the
outbound connection: time since the last read or write on that connection,
and whether the timer has fired and torn the tunnel down (its callback
closes the raw outbound connection, after which both copies fail and the
close guard closes both sides). -/
structure TunnelState where
  sinceActivity : Nat
  torn : Bool
  deriving DecidableEq, Repr

/-- Events affecting the outbound connection's idle timer.  Bytes moving
client-to-target are writes on the outbound connection and bytes moving
target-to-client are reads on it, so traffic in either direction resets the
same single timer. -/
inductive TunnelEv
  | bytesClientToTarget
  | bytesTargetToClient
  | elapse (d : Nat)
  deriving DecidableEq, Repr

/-- One step of the idle-timing behaviour of the outbound connection. -/
def tunnelStep (timeout : Nat) (s : TunnelState) : TunnelEv → TunnelState
  | .bytesClientToTarget => if s.torn then s else { s with sinceActivity := 0 }
  | .bytesTargetToClient => if s.torn then s else { s with sinceActivity := 0 }
  | .elapse d =>
    if s.torn then s
    else if timeout ≤ s.sinceActivity + d then
      { sinceActivity := s.sinceActivity + d, torn := true }
    else { s with sinceActivity := s.sinceActivity + d }

/-! ### Connection counting and the stoppable listener (`server.go`) -/

/-- The `http.ConnState` values the `ConnState` callback distinguishes
(`server.go` lines 136-148). -/
inductive ConnEvent
  | stateNew
  | stateActive
  | stateClosed
  deriving DecidableEq, Repr

/-- The counter update the callback performs:
`atomic.AddInt64(&s.numConns, 1)` on `StateNew`,
`atomic.AddInt64(&s.numConns, -1)` on `StateClosed`, nothing on
`StateActive`.  It is a plain add, with no lower bound. -/
def updateNumConns (n : Int) : ConnEvent → Int
  | .stateNew => n + 1
  | .stateActive => n
  | .stateClosed => n - 1

/-- The counter after a sequence of connection-state events, starting from
zero. -/
def runNumConns (evs : List ConnEvent) : Int :=
  evs.foldl updateNumConns 0

/-- The update the claim describes (decrement floored at zero).  Written
from the spec's words, for comparison with `updateNumConns`. -/
def updateClaimed (n : Int) : ConnEvent → Int
  | .stateNew => n + 1
  | .stateActive => n
  | .stateClosed => max 0 (n - 1)

/-- Number of `StateNew` events (connections accepted) in a trace. -/
def countNew : List ConnEvent → Nat
  | [] => 0
  | .stateNew :: evs => countNew evs + 1
  | _ :: evs => countNew evs

/-- Number of `StateClosed` events (connections fully terminated). -/
def countClosed : List ConnEvent → Nat
  | [] => 0
  | .stateClosed :: evs => countClosed evs + 1
  | _ :: evs => countClosed evs

/-- Well-formedness of an event trace, tracking the number of live
connections: the serving loop reports `StateClosed` only for a connection it
previously reported as `StateNew`, so a close event can only occur while
some connection is live. -/
def wellFormedFrom : Nat → List ConnEvent → Bool
  | _, [] => true
  | live, .stateNew :: evs => wellFormedFrom (live + 1) evs
  | live, .stateActive :: evs => wellFormedFrom live evs
  | live, .stateClosed :: evs => decide (0 < live) && wellFormedFrom (live - 1) evs

/-- A trace is well formed when it is well formed starting from zero live
connections. -/
def wellFormed (evs : List ConnEvent) : Bool := wellFormedFrom 0 evs

/-- State of `stoppableListener` (`server.go` lines 160-206): the atomic
`stopped` flag, whether the buffered `stop` channel currently holds a token,
and whether a send on the unbuffered `restart` channel is pending delivery
to the accept loop. -/
structure Listener where
  stopped : Bool
  stopTok : Bool
  restartPending : Bool
  deriving DecidableEq, Repr

/-- The listener as created by `newStoppableListener`: running, both
channels empty. -/
def initListener : Listener := ⟨false, false, false⟩

/-- `Stop` (lines 194-199): only when not already stopped, put a token in
the `stop` channel and set the flag; calling it while stopped does
nothing. -/
def slStop (s : Listener) : Listener :=
  if s.stopped then s else { s with stopped := true, stopTok := true }

/-- `Restart` (lines 201-206): only when stopped, send on the `restart`
channel (delivered to the accept loop) and clear the flag; calling it while
running does nothing. -/
def slRestart (s : Listener) : Listener :=
  if s.stopped then { s with stopped := false, restartPending := true } else s

/-- The two possible behaviours of a call to `Accept`. -/
inductive AcceptOutcome
  | proceeds (s : Listener)           -- reaches the underlying Accept
  | blocksUntilRestart (s : Listener) -- parked on the restart channel
  deriving DecidableEq, Repr

/-- `Accept` (lines 178-188): if the `stop` channel holds a token, consume
it and block on the `restart` channel, proceeding only once the restart
signal is delivered; with no stop token it proceeds immediately to the
underlying `Accept`. -/
def slAccept (s : Listener) : AcceptOutcome :=
  if s.stopTok then
    if s.restartPending then
      .proceeds { s with stopTok := false, restartPending := false }
    else
      .blocksUntilRestart { s with stopTok := false }
  else .proceeds s

/-- The gating step of the `ConnState` callback (`server.go` lines 150-154):
after the counter update, stop the listener when the live count has reached
the cap, otherwise restart it if it was stopped. -/
def connStateGate (numConns maxConns : Int) (s : Listener) : Listener :=
  if maxConns ≤ numConns then slStop s
  else if s.stopped then slRestart s
  else s

/-! ### Port restriction (`proxyfilters/connectports.go`) -/

/-- Index of the first occurrence of a character, Go's `byteIndex`. -/
def byteIndexList (s : List Char) (c : Char) : Option Nat :=
  match s with
  | [] => none
  | a :: rest => if a = c then some 0 else (byteIndexList rest c).map (· + 1)

/-- Index of the last occurrence of a character, Go's `last`. -/
def lastIndexList (s : List Char) (c : Char) : Option Nat :=
  match s with
  | [] => none
  | a :: rest =>
    match lastIndexList rest c with
    | some i => some (i + 1)
    | none => if a = c then some 0 else none

/-- Go's `net.SplitHostPort` (`net/ipsock.go`): splits `host:port` (or
`[host]:port`) into host and port, returning `none` on any address error
(missing port, missing or stray brackets, too many colons). -/
def splitHostPort (hostport : List Char) : Option (List Char × List Char) :=
  match lastIndexList hostport ':' with
  | none => none
  | some i =>
    match hostport with
    | [] => none
    | c0 :: _ =>
      if c0 = '[' then
        match byteIndexList hostport ']' with
        | none => none
        | some e =>
          if e + 1 = hostport.length then none
          else if e + 1 = i then
            if byteIndexList (hostport.drop 1) '[' ≠ none then none
            else if byteIndexList (hostport.drop (e + 1)) ']' ≠ none then none
            else some ((hostport.take e).drop 1, hostport.drop (i + 1))
          else none
      else
        if byteIndexList (hostport.take i) ':' ≠ none then none
        else if byteIndexList hostport '[' ≠ none then none
        else if byteIndexList hostport ']' ≠ none then none
        else some (hostport.take i, hostport.drop (i + 1))

/-- Go's `strconv.Atoi` over the port string: optional sign followed by at
least one decimal digit, with the signed-64-bit range check; `none` on any
parse error. -/
def atoi (s : List Char) : Option Int :=
  let signDigits : Bool × List Char :=
    match s with
    | '-' :: rest => (true, rest)
    | '+' :: rest => (false, rest)
    | _ => (false, s)
  if signDigits.2 = [] then none
  else if signDigits.2.all Char.isDigit then
    let v : Nat := signDigits.2.foldl (fun a c => a * 10 + (c.toNat - '0'.toNat)) 0
    let iv : Int := if signDigits.1 then -(v : Int) else (v : Int)
    if iv < -(2 ^ 63 : Int) ∨ (2 ^ 63 - 1 : Int) < iv then none else some iv
  else none

/-- Result of running the port-restriction filter on a request: either the
request is handed to the next filter (unchanged method and host), or the
filter fails the request with a status code and message. -/
inductive FilterResult
  | next (method : String) (host : String)
  | fail (status : Nat) (msg : String)
  deriving DecidableEq, Repr

/-- `RestrictConnectPorts` (`proxyfilters/connectports.go` lines 14-39):
non-CONNECT requests and an empty allow-list pass straight through; a CONNECT
host without a parseable `host:port` shape gets 400, an unparseable port
number gets 400, a port outside the allow-list gets 403, and an allowed port
passes through. -/
def restrictConnectPorts (allowedPorts : List Int) (method host : String) :
    FilterResult :=
  if method ≠ "CONNECT" ∨ allowedPorts = [] then .next method host
  else
    match splitHostPort host.toList with
    | none => .fail 400 "No port field in Request-URI / Host header"
    | some (_, portString) =>
      match atoi portString with
      | none => .fail 400 "Invalid port"
      | some port =>
        if port ∈ allowedPorts then .next method host
        else .fail 403 "Port not allowed"

/-! ### Traffic reporting (`utils/redis_reporter.go`) -/

/-- A `measured.TrafficTracker`: client identifier and cumulative byte
totals (unsigned 64-bit in Go). -/
structure TrafficTracker where
  id : String
  totalIn : Nat
  totalOut : Nat
  deriving DecidableEq, Repr

/-- Outcome of `redisReporter.ReportTraffic`: a Go panic, an error return,
or a nil return. -/
inductive ReportOutcome
  | panicked
  | errored (msg : String)
  | ok
  deriving DecidableEq, Repr

/-- The two Redis writes `ReportTraffic` performs for one tracker, in
order: `HMSet("client:"+key, bytesIn, bytesOut)` then
`ZAdd("client->bytes", score, key)`; the first failing write produces the
wrapped error (`Error setting Redis key: ...`).  The store behaviour is a
parameter: each write returns `some` error message on failure and `none` on
success.  The score addition is 64-bit unsigned, hence the modulus. -/
def trackerWriteError (hmset : String → Nat → Nat → Option String)
    (zadd : Nat → String → Option String) (t : TrafficTracker) :
    Option String :=
  match hmset ("client:" ++ t.id) t.totalIn t.totalOut with
  | some e => some ("Error setting Redis key: " ++ e)
  | none =>
    match zadd ((t.totalIn + t.totalOut) % 2 ^ 64) t.id with
    | some e => some ("Error setting Redis key: " ++ e)
    | none => none

/-- `ReportTraffic` (`utils/redis_reporter.go` lines 36-62): iterate over
the trackers in order; a tracker with an empty identifier panics
(`panic("empty key is not allowed")`); otherwise the tracker's two writes
run, and the first failing write makes the function return its error
immediately; if every write of every tracker succeeds the function returns
nil. -/
def reportTraffic (hmset : String → Nat → Nat → Option String)
    (zadd : Nat → String → Option String) :
    List TrafficTracker → ReportOutcome
  | [] => .ok
  | t :: tt =>
    if t.id = "" then .panicked
    else
      match trackerWriteError hmset zadd t with
      | some e => .errored e
      | none => reportTraffic hmset zadd tt

/-! ### Helper lemmas -/

/-- After the close guard has fired once, further finish events change
nothing. -/
theorem runFinishSeq_fixed (evs : List (CopyDir × FinishCause)) :
    runFinishSeq ⟨true, 1, true, true⟩ evs = ⟨true, 1, true, true⟩ := by
  induction evs with
  | nil => rfl
  | cons e evs ih => simpa [runFinishSeq, onceDo] using ih

/-- Folding the counter update over a trace adds the number of accepts and
subtracts the number of closes. -/
theorem foldl_updateNumConns (evs : List ConnEvent) (n : Int) :
    evs.foldl updateNumConns n = n + countNew evs - countClosed evs := by
  induction evs generalizing n with
  | nil => simp [countNew, countClosed]
  | cons e evs ih =>
    cases e <;> simp [updateNumConns, countNew, countClosed, ih] <;> omega

/-- A left part of a well-formed trace is well formed from the same live
count. -/
theorem wellFormedFrom_append_left (p s : List ConnEvent) (live : Nat)
    (h : wellFormedFrom live (p ++ s) = true) :
    wellFormedFrom live p = true := by
  induction p generalizing live with
  | nil => rfl
  | cons e p ih =>
    cases e with
    | stateNew => exact ih _ h
    | stateActive => exact ih _ h
    | stateClosed =>
      rcases Bool.and_eq_true_iff.mp h with ⟨h1, h2⟩
      exact Bool.and_eq_true_iff.mpr ⟨h1, ih _ h2⟩

/-- In a trace that is well formed from `live` live connections, closes
never outnumber accepts by more than `live`. -/
theorem wellFormedFrom_count (p : List ConnEvent) (live : Nat)
    (h : wellFormedFrom live p = true) :
    countClosed p ≤ live + countNew p := by
  induction p generalizing live with
  | nil => simp [countClosed]
  | cons e p ih =>
    cases e with
    | stateNew =>
      have := ih _ h
      simp only [countNew, countClosed]
      omega
    | stateActive =>
      have := ih _ h
      simp only [countNew, countClosed]
      omega
    | stateClosed =>
      rcases Bool.and_eq_true_iff.mp h with ⟨h1, h2⟩
      have hl : 0 < live := of_decide_eq_true h1
      have := ih _ h2
      simp only [countNew, countClosed]
      omega

/-! ### Claim theorems -/

/-- Claim C1, counterexample: the pipeline built by `NewServer` does not
run the authentication-token check first; its first component is the
UID-extracting device filter, while the claimed order puts the token filter
first. -/
theorem C1_counterexample :
    pipelineChain ≠ claimedChain ∧
    pipelineChain.head? = some Component.deviceF ∧
    claimedChain.head? = some Component.tokenF := by
  decide

/-- Claim C1 (amended): the pipeline applies its filters in the fixed order
client-identity (UID) extraction first, then the authentication-token check,
then tier classification, then the terminal CONNECT/forward dispatcher; on
every request the visited components form an initial segment of that fixed
chain (no filter is reordered or skipped), starting with the device
filter. -/
theorem C1_pipeline_order (tok : String) (req : Req) :
    pipelineChain = [Component.deviceF, Component.tokenF,
      Component.lanternPro, Component.connectH, Component.forwardH] ∧
    (∃ rest, (runPipeline tok req).2 ++ rest = pipelineChain) ∧
    (runPipeline tok req).2.head? = some Component.deviceF := by
  refine ⟨rfl, ?_, ?_⟩ <;>
  · rcases req with ⟨m, a, u⟩
    cases u with
    | none => simp [runPipeline, pipelineChain, chainFromFuel, firstComponent, nextOf]
    | some uv =>
      cases a with
      | none => simp [runPipeline, pipelineChain, chainFromFuel, firstComponent, nextOf]
      | some av =>
        by_cases hav : av = tok
        · by_cases hm : m = "CONNECT" <;>
            simp [runPipeline, hav, hm, pipelineChain, chainFromFuel,
              firstComponent, nextOf]
        · simp [runPipeline, hav, pipelineChain, chainFromFuel,
            firstComponent, nextOf]

/-- Claim C2, counterexample: on a CONNECT request whose outbound dial
fails, `intercept` does not close the client connection — its action trace
contains no `closeClient`. -/
theorem C2_counterexample :
    IAct.closeClient ∉ interceptTrace true false := by
  decide

/-- Claim C2 (amended): on dial failure `intercept` writes nothing further
to the client after the already-sent success status and returns without
closing the client connection (the connection is simply abandoned): the
whole trace is the 200 OK followed by the failed dial. -/
theorem C2_dial_failure_silent :
    interceptTrace true false = [IAct.respondOK, IAct.dialTarget] ∧
    IAct.respondBadGateway ∉ interceptTrace true false ∧
    IAct.closeTarget ∉ interceptTrace true false := by
  decide

/-- Claim C3: for every established CONNECT tunnel, whatever nonempty
sequence of copy-direction finish events occurs (either direction first, by
EOF, error or idle timeout; concurrent finishes are serialised by
`sync.Once`), the close guard's body runs exactly once, and afterwards both
the client connection and the outbound connection are closed. -/
theorem C3_close_guard_once (evs : List (CopyDir × FinishCause))
    (h : evs ≠ []) :
    (runFinishSeq initGuard evs).bodyRuns = 1 ∧
    (runFinishSeq initGuard evs).clientClosed = true ∧
    (runFinishSeq initGuard evs).targetClosed = true := by
  cases evs with
  | nil => exact absurd rfl h
  | cons e evs =>
    have hstep : onceDo initGuard = ⟨true, 1, true, true⟩ := by decide
    have : runFinishSeq initGuard (e :: evs) = ⟨true, 1, true, true⟩ := by
      simpa [runFinishSeq, hstep] using runFinishSeq_fixed evs
    simp [this]

/-- Claim C3, witness: both directions finishing (client-to-target by EOF
first, then target-to-client by error) fire the guard exactly once and
leave both connections closed. -/
theorem C3_close_guard_once_witness :
    (runFinishSeq initGuard [(CopyDir.clientToTarget, FinishCause.eof),
      (CopyDir.targetToClient, FinishCause.ioError)]).bodyRuns = 1 ∧
    (runFinishSeq initGuard [(CopyDir.clientToTarget, FinishCause.eof),
      (CopyDir.targetToClient, FinishCause.ioError)]).clientClosed = true ∧
    (runFinishSeq initGuard [(CopyDir.clientToTarget, FinishCause.eof),
      (CopyDir.targetToClient, FinishCause.ioError)]).targetClosed = true :=
  C3_close_guard_once _ (by decide)

/-- Claim C6, counterexample: the tunnel does not give each side its own
idle timer; `intercept` leaves the client side without any timer, so the
actual timer placement differs from the claimed one. -/
theorem C6_counterexample :
    interceptTimers 30 ≠ claimedTimers 30 ∧
    (interceptTimers 30).clientIdle = none := by
  decide

/-- Claim C6 (amended): the tunnel carries a single idle timer, attached to
the outbound (target-side) connection only; since bytes moving in either
direction are reads or writes on that connection, traffic in either
direction resets the timer, and once no bytes have passed in either
direction for the configured timeout the timer fires and the tunnel is torn
down; the client connection carries no timer of its own. -/
theorem C6_single_target_timer (t d : Nat) (s : TunnelState)
    (hs : s.torn = false) (hd : t ≤ s.sinceActivity + d) :
    (interceptTimers t).clientIdle = none ∧
    (interceptTimers t).targetIdle = some t ∧
    (tunnelStep t s .bytesClientToTarget).sinceActivity = 0 ∧
    (tunnelStep t s .bytesTargetToClient).sinceActivity = 0 ∧
    (tunnelStep t s (.elapse d)).torn = true := by
  refine ⟨rfl, rfl, ?_, ?_, ?_⟩ <;> simp [tunnelStep, hs, hd]

/-- Claim C6, witness: with a 30-unit timeout, traffic in either direction
resets the target-side timer, and 31 idle units from the initial state tear
the tunnel down. -/
theorem C6_single_target_timer_witness :
    (interceptTimers 30).clientIdle = none ∧
    (interceptTimers 30).targetIdle = some 30 ∧
    (tunnelStep 30 ⟨0, false⟩ .bytesClientToTarget).sinceActivity = 0 ∧
    (tunnelStep 30 ⟨0, false⟩ .bytesTargetToClient).sinceActivity = 0 ∧
    (tunnelStep 30 ⟨0, false⟩ (.elapse 31)).torn = true :=
  C6_single_target_timer 30 31 ⟨0, false⟩ (by decide) (by decide)

/-- Claim C4, counterexample: the live counter is a plain decrement with no
floor at zero: a `StateClosed` event at counter 0 drives it to -1, where the
claimed floored update would leave it at 0, so the update does not match the
claim and the counter can go negative on such an event sequence. -/
theorem C4_counterexample :
    runNumConns [ConnEvent.stateClosed] = -1 ∧
    runNumConns [ConnEvent.stateClosed] < 0 ∧
    updateNumConns 0 ConnEvent.stateClosed ≠ updateClaimed 0 ConnEvent.stateClosed := by
  decide

/-- Claim C4 (amended): the decrement is unfloored, but over every
well-formed event sequence (each `Closed` matched by an earlier `New`, which
is what the serving loop reports) the live counter at every point equals the
exact number of connections accepted and not yet closed, and in particular
is never negative. -/
theorem C4_live_counter (evs p s : List ConnEvent)
    (hwf : wellFormed evs = true) (hsplit : evs = p ++ s) :
    runNumConns p = (countNew p : Int) - countClosed p ∧ 0 ≤ runNumConns p := by
  have heq : runNumConns p = (countNew p : Int) - countClosed p := by
    simpa using foldl_updateNumConns p 0
  have hwp : wellFormedFrom 0 p = true :=
    wellFormedFrom_append_left p s 0 (hsplit ▸ hwf)
  have hc : countClosed p ≤ countNew p := by
    simpa using wellFormedFrom_count p 0 hwp
  refine ⟨heq, ?_⟩
  rw [heq]
  have : (countClosed p : Int) ≤ countNew p := by exact_mod_cast hc
  omega

/-- Claim C4, witness: along the well-formed trace New, Active, Closed, New,
the counter after the first three events equals the one accepted-and-not-yet
-closed count computed directly, and is non-negative. -/
theorem C4_live_counter_witness :
    runNumConns [ConnEvent.stateNew, ConnEvent.stateActive, ConnEvent.stateClosed] =
      (countNew [ConnEvent.stateNew, ConnEvent.stateActive, ConnEvent.stateClosed] : Int) -
        countClosed [ConnEvent.stateNew, ConnEvent.stateActive, ConnEvent.stateClosed] ∧
    0 ≤ runNumConns [ConnEvent.stateNew, ConnEvent.stateActive, ConnEvent.stateClosed] :=
  C4_live_counter
    [ConnEvent.stateNew, ConnEvent.stateActive, ConnEvent.stateClosed, ConnEvent.stateNew]
    [ConnEvent.stateNew, ConnEvent.stateActive, ConnEvent.stateClosed]
    [ConnEvent.stateNew] (by decide) (by decide)

/-- Claim C5: after a counter update, if the live count has reached the cap
and the listener is running, it transitions to stopped and the next Accept
call blocks until a subsequent Restart delivers its signal; if the live
count is below the cap and the listener is stopped, it transitions back to
running, its restart signal unblocking any pending Accept and letting any
future Accept proceed; and a repeated Stop while stopped or Restart while
running is a no-op. -/
theorem C5_pause_resume (n cap : Int) (s : Listener) :
    (cap ≤ n → s.stopped = false → s.restartPending = false →
       (connStateGate n cap s).stopped = true ∧
       slAccept (connStateGate n cap s) =
         .blocksUntilRestart ⟨true, false, false⟩ ∧
       (slRestart ⟨true, false, false⟩).restartPending = true) ∧
    (n < cap → s.stopped = true →
       (connStateGate n cap s).stopped = false ∧
       (connStateGate n cap s).restartPending = true ∧
       (∃ s2, slAccept (connStateGate n cap s) = .proceeds s2)) ∧
    (s.stopped = true → slStop s = s) ∧
    (s.stopped = false → slRestart s = s) := by
  refine ⟨?_, ?_, ?_, ?_⟩
  · intro hcap hrun hrp
    have hgate : connStateGate n cap s = ⟨true, true, false⟩ := by
      rcases s with ⟨st, tok, rp⟩
      simp only at hrun hrp
      subst hrun hrp
      simp [connStateGate, slStop, hcap]
    refine ⟨by simp [hgate], by simp [hgate, slAccept], by simp [slRestart]⟩
  · intro hcap hstopped
    have hnot : ¬ cap ≤ n := not_le.mpr hcap
    have hgate : connStateGate n cap s =
        { s with stopped := false, restartPending := true } := by
      simp [connStateGate, hnot, hstopped, slRestart]
    refine ⟨by simp [hgate], by simp [hgate], ?_⟩
    rcases htok : s.stopTok with _ | _
    · exact ⟨⟨false, false, true⟩, by simp [hgate, slAccept, htok]⟩
    · exact ⟨⟨false, false, false⟩, by simp [hgate, slAccept, htok]⟩
  · intro hstopped
    simp [slStop, hstopped]
  · intro hrun
    simp [slRestart, hrun]

/-- Claim C5, witness: with cap 3 and the listener running, the third live
connection stops the listener and the next Accept parks until the restart
signal; with the count back to 2 and the listener stopped, the gate restarts
it and Accept proceeds; repeated Stop while stopped and Restart while
running change nothing. -/
theorem C5_pause_resume_witness :
    ((connStateGate 3 3 initListener).stopped = true ∧
     slAccept (connStateGate 3 3 initListener) =
       .blocksUntilRestart ⟨true, false, false⟩ ∧
     (slRestart ⟨true, false, false⟩).restartPending = true) ∧
    ((connStateGate 2 3 ⟨true, true, false⟩).stopped = false ∧
     (connStateGate 2 3 ⟨true, true, false⟩).restartPending = true ∧
     (∃ s2, slAccept (connStateGate 2 3 ⟨true, true, false⟩) = .proceeds s2)) ∧
    (slStop ⟨true, true, false⟩ = ⟨true, true, false⟩) ∧
    (slRestart initListener = initListener) :=
  ⟨(C5_pause_resume 3 3 initListener).1 (by decide) (by decide) (by decide),
   (C5_pause_resume 2 3 ⟨true, true, false⟩).2.1 (by decide) (by decide),
   (C5_pause_resume 0 1 ⟨true, true, false⟩).2.2.1 (by decide),
   (C5_pause_resume 0 1 initListener).2.2.2 (by decide)⟩

/-- Claim C7: every request, CONNECT or direct, that lacks the token
header, carries a wrong token, or lacks the UID header is answered with
HTTP 404 Not Found, and the response for an absent token is identical to the
response for a wrong token, making the two indistinguishable to the
client. -/
theorem C7_uniform_404 (tok wrong m : String) (u : Option String)
    (hw : wrong ≠ tok) :
    observedResp tok ⟨m, none, u⟩ = some notFoundResp ∧
    observedResp tok ⟨m, some wrong, u⟩ = some notFoundResp ∧
    observedResp tok ⟨m, some tok, none⟩ = some notFoundResp ∧
    observedResp tok ⟨m, none, u⟩ = observedResp tok ⟨m, some wrong, u⟩ := by
  cases u with
  | none => simp [observedResp, runPipeline]
  | some uv => simp [observedResp, runPipeline, hw]

/-- Claim C7, witness: with the test-suite's token, a CONNECT request with
no token, one with the bad token of `main_test.go`, and one with a valid
token but no UID all receive 404 Not Found, the first two
indistinguishably. -/
theorem C7_uniform_404_witness :
    observedResp "6o0dToK3n" ⟨"CONNECT", none, some "1234"⟩ = some notFoundResp ∧
    observedResp "6o0dToK3n" ⟨"CONNECT", some "B4dT0k3n", some "1234"⟩ = some notFoundResp ∧
    observedResp "6o0dToK3n" ⟨"CONNECT", some "6o0dToK3n", none⟩ = some notFoundResp ∧
    observedResp "6o0dToK3n" ⟨"CONNECT", none, some "1234"⟩ =
      observedResp "6o0dToK3n" ⟨"CONNECT", some "B4dT0k3n", some "1234"⟩ :=
  C7_uniform_404 "6o0dToK3n" "B4dT0k3n" "CONNECT" (some "1234") (by decide)

/-- Claim C8: with a non-empty allow-list, a CONNECT request whose host
does not split into host and port gets HTTP 400, one whose port parses but
is not allowed gets HTTP 403, and one whose port is allowed is passed to the
next filter with the request unchanged. -/
theorem C8_port_restriction (allowedPorts : List Int) (host : String) (p : Int)
    (hne : allowedPorts ≠ []) :
    (splitHostPort host.toList = none →
       restrictConnectPorts allowedPorts "CONNECT" host =
         .fail 400 "No port field in Request-URI / Host header") ∧
    (∀ h ps, splitHostPort host.toList = some (h, ps) → atoi ps = some p →
       p ∉ allowedPorts →
       restrictConnectPorts allowedPorts "CONNECT" host =
         .fail 403 "Port not allowed") ∧
    (∀ h ps, splitHostPort host.toList = some (h, ps) → atoi ps = some p →
       p ∈ allowedPorts →
       restrictConnectPorts allowedPorts "CONNECT" host =
         .next "CONNECT" host) := by
  refine ⟨?_, ?_, ?_⟩
  · intro hs
    have hs2 : splitHostPort host.data = none := hs
    simp [restrictConnectPorts, hne, hs2]
  · intro h ps hs ha hmem
    have hs2 : splitHostPort host.data = some (h, ps) := hs
    simp [restrictConnectPorts, hne, hs2, ha, hmem]
  · intro h ps hs ha hmem
    have hs2 : splitHostPort host.data = some (h, ps) := hs
    simp [restrictConnectPorts, hne, hs2, ha, hmem]

/-- Claim C8, witness: with allow-list `[443]`, a host without a port gets
400, port 80 gets 403, and port 443 passes through unchanged. -/
theorem C8_port_restriction_witness :
    restrictConnectPorts [443] "CONNECT" "example.com" =
      .fail 400 "No port field in Request-URI / Host header" ∧
    restrictConnectPorts [443] "CONNECT" "example.com:80" =
      .fail 403 "Port not allowed" ∧
    restrictConnectPorts [443] "CONNECT" "example.com:443" =
      .next "CONNECT" "example.com:443" :=
  ⟨(C8_port_restriction [443] "example.com" 0 (by decide)).1 (by decide),
   (C8_port_restriction [443] "example.com:80" 80 (by decide)).2.1
     "example.com".toList "80".toList (by decide) (by decide) (by decide),
   (C8_port_restriction [443] "example.com:443" 443 (by decide)).2.2
     "example.com".toList "443".toList (by decide) (by decide) (by decide)⟩

/-- Claim C9: a non-CONNECT request, and any request when the allow-list is
empty, passes through the port-restriction filter unchanged; and a CONNECT
request whose host splits but whose port does not parse as an integer gets
HTTP 400, not 403. -/
theorem C9_passthrough (allowedPorts : List Int) (method host : String) :
    (method ≠ "CONNECT" →
       restrictConnectPorts allowedPorts method host = .next method host) ∧
    restrictConnectPorts [] method host = .next method host ∧
    (∀ h ps, allowedPorts ≠ [] → splitHostPort host.toList = some (h, ps) →
       atoi ps = none →
       restrictConnectPorts allowedPorts "CONNECT" host =
         .fail 400 "Invalid port") := by
  refine ⟨?_, ?_, ?_⟩
  · intro hm
    simp [restrictConnectPorts, hm]
  · simp [restrictConnectPorts]
  · intro h ps hne hs ha
    have hs2 : splitHostPort host.data = some (h, ps) := hs
    simp [restrictConnectPorts, hne, hs2, ha]

/-- Claim C9, witness: a GET request and an empty allow-list pass through
unchanged, and a CONNECT to a non-numeric port gets 400. -/
theorem C9_passthrough_witness :
    restrictConnectPorts [443] "GET" "example.com" = .next "GET" "example.com" ∧
    restrictConnectPorts [] "CONNECT" "example.com" =
      .next "CONNECT" "example.com" ∧
    restrictConnectPorts [443] "CONNECT" "example.com:http" =
      .fail 400 "Invalid port" :=
  ⟨(C9_passthrough [443] "GET" "example.com").1 (by decide),
   (C9_passthrough [] "CONNECT" "example.com").2.1,
   (C9_passthrough [443] "CONNECT" "example.com:http").2.2
     "example.com".toList "http".toList (by decide) (by decide) (by decide)⟩

/-- Claim C10, counterexample: an input that contains a tracker with an
empty identifier does not make `ReportTraffic` panic when an earlier
tracker's store write fails: the function returns that write's error before
the empty identifier is ever examined. -/
theorem C10_counterexample :
    reportTraffic (fun _ _ _ => some "boom") (fun _ _ => none)
      [⟨"a", 1, 2⟩, ⟨"", 0, 0⟩] ≠ .panicked ∧
    reportTraffic (fun _ _ _ => some "boom") (fun _ _ => none)
      [⟨"a", 1, 2⟩, ⟨"", 0, 0⟩] = .errored "Error setting Redis key: boom" := by
  decide

/-- Claim C10 (amended): `ReportTraffic` panics only when it reaches a
tracker with an empty identifier (all earlier trackers' writes having
succeeded); for inputs in which every tracker has a non-empty identifier it
never panics, it returns nil exactly when every tracker's two store writes
succeed, and the first failing write makes it stop and return that write's
error. -/
theorem C10_report_traffic (hmset : String → Nat → Nat → Option String)
    (zadd : Nat → String → Option String) (tt : List TrafficTracker)
    (hids : ∀ t ∈ tt, t.id ≠ "") :
    reportTraffic hmset zadd tt ≠ .panicked ∧
    (reportTraffic hmset zadd tt = .ok ↔
       ∀ t ∈ tt, trackerWriteError hmset zadd t = none) ∧
    (∀ pre t post e, tt = pre ++ t :: post →
       (∀ u ∈ pre, trackerWriteError hmset zadd u = none) →
       trackerWriteError hmset zadd t = some e →
       reportTraffic hmset zadd tt = .errored e) := by
  induction tt with
  | nil =>
    refine ⟨by simp [reportTraffic], by simp [reportTraffic], ?_⟩
    intro pre t post e hsplit
    exact absurd hsplit (by simp)
  | cons t0 tt ih =>
    have hid0 : t0.id ≠ "" := hids t0 (by simp)
    obtain ⟨ihp, ihok, iherr⟩ := ih (fun t ht => hids t (by simp [ht]))
    cases hw : trackerWriteError hmset zadd t0 with
    | some e0 =>
      have hrep : reportTraffic hmset zadd (t0 :: tt) = .errored e0 := by
        simp [reportTraffic, hid0, hw]
      refine ⟨by simp [hrep], ?_, ?_⟩
      · rw [hrep]
        constructor
        · intro h
          cases h
        · intro hall
          have h0 := hall t0 (by simp)
          rw [hw] at h0
          cases h0
      · intro pre t post e hsplit hpre hte
        cases pre with
        | nil =>
          simp only [List.nil_append] at hsplit
          injection hsplit with h1 h2
          rw [← h1, hw] at hte
          injection hte with he
          rw [hrep, he]
        | cons q qs =>
          simp only [List.cons_append] at hsplit
          injection hsplit with h1 h2
          have hq := hpre q (by simp)
          rw [← h1, hw] at hq
          cases hq
    | none =>
      have hrep : reportTraffic hmset zadd (t0 :: tt) =
          reportTraffic hmset zadd tt := by
        simp [reportTraffic, hid0, hw]
      refine ⟨by simpa [hrep] using ihp, ?_, ?_⟩
      · rw [hrep, ihok]
        simp [List.forall_mem_cons, hw]
      · intro pre t post e hsplit hpre hte
        cases pre with
        | nil =>
          simp only [List.nil_append] at hsplit
          injection hsplit with h1 h2
          rw [← h1, hw] at hte
          cases hte
        | cons q qs =>
          simp only [List.cons_append] at hsplit
          injection hsplit with h1 h2
          rw [hrep]
          exact iherr qs t post e h2 (fun u hu => hpre u (by simp [hu])) hte

/-- Claim C10, witness: with identifiers a, b, c all non-empty and the
store failing exactly on key `client:b`, the reporter does not panic and
returns the wrapped error of that first failing write. -/
theorem C10_report_traffic_witness :
    reportTraffic (fun k _ _ => if k = "client:b" then some "boom" else none)
        (fun _ _ => none)
        [⟨"a", 1, 2⟩, ⟨"b", 3, 4⟩, ⟨"c", 5, 6⟩] ≠ .panicked ∧
    reportTraffic (fun k _ _ => if k = "client:b" then some "boom" else none)
        (fun _ _ => none)
        [⟨"a", 1, 2⟩, ⟨"b", 3, 4⟩, ⟨"c", 5, 6⟩] =
      .errored "Error setting Redis key: boom" :=
  ⟨(C10_report_traffic (fun k _ _ => if k = "client:b" then some "boom" else none)
      (fun _ _ => none) [⟨"a", 1, 2⟩, ⟨"b", 3, 4⟩, ⟨"c", 5, 6⟩] (by decide)).1,
   (C10_report_traffic (fun k _ _ => if k = "client:b" then some "boom" else none)
      (fun _ _ => none) [⟨"a", 1, 2⟩, ⟨"b", 3, 4⟩, ⟨"c", 5, 6⟩] (by decide)).2.2
     [⟨"a", 1, 2⟩] ⟨"b", 3, 4⟩ [⟨"c", 5, 6⟩] "Error setting Redis key: boom"
     rfl (by decide) (by decide)⟩

end HttpProxy
